import Mathlib

/-!
Verification development for the UID-keyed geometry shader generator
(Source/Core/VideoCommon/GeometryShaderGen.cpp).

The generator is embedded shallowly: each `out.Write` call site (and each call
to a text-emitting helper) becomes one element of a trace of write events
(`W`); `render` reproduces the formatted text of each event and `shaderText`
joins the trace into the final program text.  Statements about the generated
program are stated over the trace and over `render`.
-/

set_option maxHeartbeats 1000000

/-- The primitive topology enum (PrimitiveType from VideoCommon.h):
Points = 0, Lines = 1, Triangles = 2, TriangleStrip = 3. -/
inductive PrimitiveType where
  | Points
  | Lines
  | Triangles
  | TriangleStrip
deriving DecidableEq, Repr

/-- The `static_cast<u32>` of a PrimitiveType value. -/
def PrimitiveType.toU32 : PrimitiveType → Nat
  | .Points => 0
  | .Lines => 1
  | .Triangles => 2
  | .TriangleStrip => 3

/-- The target graphics API (APIType). -/
inductive APIType where
  | OpenGL
  | D3D
  | Vulkan
deriving DecidableEq, Repr

/-- geometry_shader_uid_data: the fields of the UID that GeometryShaderGen.cpp
reads and writes.  `primitive_type` and `numTexGens` are u32 fields; the header
declaring the struct is not in src, so the field list is taken from the uses in
the .cpp and the spec's data model (fixed-layout record: primitive type,
texgen count; all unused bits zero). -/
structure geometry_shader_uid_data where
  primitive_type : Nat
  numTexGens : Nat
deriving DecidableEq, Repr

/-- Modelled from the spec: the UID is a fixed-size, zero-initialized
plain-data record whose byte pattern is its two u32 fields in order
(the declaring header is not in src).  Packs the two fields into one number,
low word first. -/
def uidBits (u : geometry_shader_uid_data) : Nat :=
  u.primitive_type % 2 ^ 32 + 2 ^ 32 * (u.numTexGens % 2 ^ 32)

/-- ShaderHostConfig: the host configuration fields GeometryShaderGen.cpp
reads (the header is not in src; fields are taken from the uses in the .cpp,
matching the spec's Host Configuration Snapshot). -/
structure ShaderHostConfig where
  wireframe : Bool
  msaa : Bool
  ssaa : Bool
  stereo : Bool
  more_layers : Nat
  vr : Bool
  backend_gs_instancing : Bool
  backend_depth_clamp : Bool
deriving DecidableEq, Repr

/-- The fields of the process-global g_ActiveConfig singleton that
GeometryShaderGen.cpp reads, made explicit as a parameter. -/
structure ActiveConfig where
  iStereoMode : Nat
  bWireFrame : Bool
  bEnablePixelLighting : Bool
  bSupportsPrimitiveRestart : Bool
  bSupportsBindingLayout : Bool
deriving DecidableEq, Repr

/-- constexpr std::array primitives_ogl. -/
def primitives_ogl : List String := ["points", "lines", "triangles", "triangles"]

/-- constexpr std::array primitives_d3d. -/
def primitives_d3d : List String := ["point", "line", "triangle", "triangle"]

/-- Modelled from the spec: the I_STEREOPARAMS macro (ShaderGenCommon.h, not in
src) names the stereo eye-separation uniform. -/
def I_STEREOPARAMS : String := "cstereo"

/-- Modelled from the spec: the I_LINEPTPARAMS macro (ShaderGenCommon.h, not in
src) names the line/point sizing uniform. -/
def I_LINEPTPARAMS : String := "clinept"

/-- Modelled from the spec: the I_TEXOFFSET macro (ShaderGenCommon.h, not in
src) names the texture-coordinate-offset bit-mask uniform. -/
def I_TEXOFFSET : String := "ctexoffset"

/-- Modelled from the spec: s_lighting_struct (LightingShaderGen.h, not in
src) is a fixed struct-declaration text; its exact content does not affect any
claim. -/
def s_lighting_struct : String :=
  "struct Light \x7b\n\tint4 color;\n\tfloat4 cosatt;\n\tfloat4 distatt;\n\tfloat4 pos;\n\tfloat4 dir;\n\x7d;\n"

/-- Modelled from the spec: GetInterpolationQualifier (ShaderGenCommon.h, not
in src) selects the interpolation qualifier from the multisample/supersample
flags only (identical for every API). -/
def GetInterpolationQualifier (msaa ssaa : Bool) (_in_glsl_block _in_dir : Bool) : String :=
  if !msaa then "" else if ssaa then "sample " else "centroid "

/-- One write event: one `out.Write` call site of GeometryShaderGen.cpp (or
one call to a text-emitting helper), carrying the formatted arguments of that
call.  `render` reproduces the text. -/
inductive W where
  | str (s : String)
  | layoutInInstanced (prim : String) (layers : Nat)
  | layoutIn (prim : String)
  | layoutOut (wireframe : Bool) (maxV : Nat)
  | genVSOutputMembers (api : APIType) (numTexGens : Nat) (pl : Bool) (qual : String)
  | vsArrayEnd (vertexIn : Nat)
  | d3dMaxVertInstance (vout layers : Nat)
  | d3dMaxVert (v : Nat)
  | d3dMainInstanced (prim : String) (vin : Nat) (wireframe : Bool)
  | d3dMain (prim : String) (vin : Nat) (wireframe : Bool)
  | assignVSOutputMembers (dst src : String) (numTexGens : Nat) (pl : Bool)
  | eyeLoop (layers : Nat)
  | vertexLoop (vin : Nat)
  | lineNudgeIf (i : Nat)
  | lineNudge (i : Nat)
  | pointNudgeIf (i : Nat)
  | pointNudgeUl (i : Nat)
  | pointNudgeUr (i : Nat)
  | pointNudgeLr (i : Nat)
  | firstCapture (v : String)
  | glPosition (v : String)
  | glClipDist (i : Nat) (v : String)
  | psAssign (v : String)
  | gsBlockAvatar (binding : Bool)
  | defineOutputMember (api : APIType) (qual ty name : String) (n : Int) (sem : String)
      (semidx : Int)
  | avatarPosCopy (a b : String)
  | avatarColorCopy (a b : String)
  | avatarTexCopy (a : String) (i : Nat) (b : String) (j : Nat)
  | avatarNudgeLl (i : Nat)
  | avatarNudgeLr (i : Nat)
  | avatarNudgeUr (i : Nat)
deriving DecidableEq, Repr

/-- Modelled from the spec: GenerateVSOutputMembers (LightingShaderGen.h, not
in src) declares the interface members sized by the texgen count --- position,
color channels, one texcoord per active texgen, and lighting members under
per-pixel lighting --- with a per-member qualifier; identical text for the
OpenGL-family dialects, HLSL semantics added for D3D. -/
def vsMember (api : APIType) (qual ty name sem : String) : String :=
  "\t" ++ qual ++ ty ++ " " ++ name ++ (if api = APIType.D3D then " : " ++ sem else "") ++ ";\n"

def vsTexMembers (api : APIType) (qual : String) : Nat → String
  | 0 => ""
  | n + 1 => vsTexMembers api qual n ++
      vsMember api qual "float3" ("tex" ++ toString n) ("TEXCOORD" ++ toString n)

def GenerateVSOutputMembersStr (api : APIType) (numTexGens : Nat) (pl : Bool)
    (qual : String) : String :=
  vsMember api qual "float4" "pos" "POSITION" ++
  vsMember api qual "float4" "colors_0" "COLOR0" ++
  vsMember api qual "float4" "colors_1" "COLOR1" ++
  vsTexMembers api qual numTexGens ++
  (if pl then vsMember api qual "float3" "Normal" "TEXCOORD20" ++
      vsMember api qual "float3" "WorldPos" "TEXCOORD21" else "")

/-- Modelled from the spec: AssignVSOutputMembers (LightingShaderGen.h, not in
src) copies each interpolated output member (position, colors, texgen channels
up to the texgen count, lighting members under per-pixel lighting) from the
source slot to the destination; it does not depend on the API. -/
def AssignVSOutputMembersStr (a b : String) (numTexGens : Nat) (pl : Bool) : String :=
  let cp : String → String := fun f => "\t" ++ a ++ "." ++ f ++ " = " ++ b ++ "." ++ f ++ ";\n"
  let rec texCps : Nat → String
    | 0 => ""
    | n + 1 => texCps n ++ cp ("tex" ++ toString n)
  cp "pos" ++ cp "colors_0" ++ cp "colors_1" ++ texCps numTexGens ++
  (if pl then cp "Normal" ++ cp "WorldPos" else "")

/-- Modelled from the spec: DefineOutputMember (ShaderGenCommon.h, not in src)
declares one interface member with optional numeric suffix and, for D3D, an
HLSL semantic; identical for the OpenGL-family dialects. -/
def DefineOutputMemberStr (api : APIType) (qual ty name : String) (n : Int) (sem : String)
    (semidx : Int) : String :=
  "\t" ++ qual ++ (if qual = "" then "" else " ") ++ ty ++ " " ++ name ++
    (if 0 ≤ n then toString n.toNat else "") ++
    (if api = APIType.D3D then
      " : " ++ sem ++ (if 0 ≤ semidx then toString semidx.toNat else "")
    else "") ++ ";\n"

/-- The text of one write event.  Constant-string events carry their text;
parametric events reproduce the printf format of the corresponding Write
call in GeometryShaderGen.cpp. -/
def render : W → String
  | .str s => s
  | .layoutInInstanced prim layers =>
      "layout(" ++ prim ++ ", invocations = " ++ toString layers ++ ") in;\n"
  | .layoutIn prim => "layout(" ++ prim ++ ") in;\n"
  | .layoutOut wf maxV =>
      "layout(" ++ (if wf then "line" else "triangle") ++ "_strip, max_vertices = " ++
        toString maxV ++ ") out;\n"
  | .genVSOutputMembers api n pl qual => GenerateVSOutputMembersStr api n pl qual
  | .vsArrayEnd vin => "\x7d vs[" ++ toString vin ++ "];\n"
  | .d3dMaxVertInstance vout layers =>
      "[maxvertexcount(" ++ toString vout ++ ")]\n[instance(" ++ toString layers ++ ")]\n"
  | .d3dMaxVert v => "[maxvertexcount(" ++ toString v ++ ")]\n"
  | .d3dMainInstanced prim vin wf =>
      "void main(" ++ prim ++ " VS_OUTPUT o[" ++ toString vin ++ "], inout " ++
        (if wf then "Line" else "Triangle") ++
        "Stream<VertexData> output, in uint InstanceID : SV_GSInstanceID)\n\x7b\n"
  | .d3dMain prim vin wf =>
      "void main(" ++ prim ++ " VS_OUTPUT o[" ++ toString vin ++ "], inout " ++
        (if wf then "Line" else "Triangle") ++ "Stream<VertexData> output)\n\x7b\n"
  | .assignVSOutputMembers dst src n pl => AssignVSOutputMembersStr dst src n pl
  | .eyeLoop layers => "\tfor (int eye = 0; eye < " ++ toString layers ++ "; ++eye) \x7b\n"
  | .vertexLoop vin => "\tfor (int i = 0; i < " ++ toString vin ++ "; ++i) \x7b\n"
  | .lineNudgeIf i =>
      "\tif (((" ++ I_TEXOFFSET ++ "[0] >> " ++ toString i ++ ") & 0x1) != 0)\n"
  | .lineNudge i => "\t\tr.tex" ++ toString i ++ ".x += texOffset;\n"
  | .pointNudgeIf i =>
      "\tif (((" ++ I_TEXOFFSET ++ "[1] >> " ++ toString i ++ ") & 0x1) != 0) \x7b\n"
  | .pointNudgeUl i => "\t\tul.tex" ++ toString i ++ ".xy += float2(0,1) * texOffset;\n"
  | .pointNudgeUr i => "\t\tur.tex" ++ toString i ++ ".xy += texOffset;\n"
  | .pointNudgeLr i => "\t\tlr.tex" ++ toString i ++ ".xy += float2(1,0) * texOffset;\n"
  | .firstCapture v => "\tif (i == 0) first = " ++ v ++ ";\n"
  | .glPosition v => "\tgl_Position = " ++ v ++ ".pos;\n"
  | .glClipDist i v =>
      "\tgl_ClipDistance[" ++ toString i ++ "] = " ++ v ++ ".clipDist" ++ toString i ++ ";\n"
  | .psAssign v => "\tps.o = " ++ v ++ ";\n"
  | .gsBlockAvatar binding =>
      "layout(std140" ++ (if binding then ", binding = 3" else "") ++ ") uniform GSBlock \x7b\n"
  | .defineOutputMember api qual ty name n sem semidx =>
      DefineOutputMemberStr api qual ty name n sem semidx
  | .avatarPosCopy a b => "\t" ++ a ++ ".pos = " ++ b ++ ".pos;\n"
  | .avatarColorCopy a b => "\t" ++ a ++ ".colors_0 = " ++ b ++ ".colors_0;\n"
  | .avatarTexCopy a i b j =>
      "\t" ++ a ++ ".tex" ++ toString i ++ " = " ++ b ++ ".tex" ++ toString j ++ ";\n"
  | .avatarNudgeLl i => "\t\tll.tex" ++ toString i ++ ".xy += float2(0,1) * texOffset;\n"
  | .avatarNudgeLr i => "\t\tlr.tex" ++ toString i ++ ".xy += texOffset;\n"
  | .avatarNudgeUr i => "\t\tur.tex" ++ toString i ++ ".xy += float2(1,0) * texOffset;\n"

/-- Layer count (line 64): `more_layers * 2 + (int)stereo + 1`. -/
def layers (cfg : ShaderHostConfig) : Nat :=
  cfg.more_layers * 2 + (if cfg.stereo then 1 else 0) + 1

/-- Input vertex count (line 61): `min(primitive_type_index + 1, 3)`. -/
def vertex_in (uid : geometry_shader_uid_data) : Nat :=
  min (uid.primitive_type + 1) 3

/-- Output vertex bound as finally used (lines 62, 66-67):
`(primitive_type == TriangleStrip ? 3 : 4)`, incremented under wireframe. -/
def vertex_out (uid : geometry_shader_uid_data) (wireframe : Bool) : Nat :=
  (if uid.primitive_type = 3 then 3 else 4) + (if wireframe then 1 else 0)

/-- EmitVertex (lines 334-367): the writes of one vertex emission. -/
def EmitVertex (api : APIType) (cfg : ShaderHostConfig) (uid : geometry_shader_uid_data)
    (pl : Bool) (vertex : String) (first_vertex : Bool) : List W :=
  (if cfg.wireframe ∧ first_vertex then [W.firstCapture vertex] else [])
  ++ (if api = APIType.OpenGL then
        [W.glPosition vertex]
        ++ (if cfg.backend_depth_clamp then
              [W.glClipDist 0 vertex, W.glClipDist 1 vertex] else [])
        ++ [W.assignVSOutputMembers "ps" vertex uid.numTexGens pl]
      else if api = APIType.Vulkan then
        [W.glPosition vertex, W.str "\tgl_Position.y = -gl_Position.y;\n",
         W.assignVSOutputMembers "ps" vertex uid.numTexGens pl]
      else
        [W.psAssign vertex])
  ++ (if api = APIType.OpenGL ∨ api = APIType.Vulkan then [W.str "\tEmitVertex();\n"]
      else [W.str "\toutput.Append(ps);\n"])

/-- EndPrimitive (lines 369-380): re-emit the first vertex under wireframe,
then close the strip. -/
def EndPrimitive (api : APIType) (cfg : ShaderHostConfig) (uid : geometry_shader_uid_data)
    (pl : Bool) : List W :=
  (if cfg.wireframe then EmitVertex api cfg uid pl "first" false else [])
  ++ (if api = APIType.OpenGL ∨ api = APIType.Vulkan then [W.str "\tEndPrimitive();\n"]
      else [W.str "\toutput.RestartStrip();\n"])

/-- The per-texgen nudge loop of the Lines path (lines 276-280), in loop
order. -/
def lineNudges : Nat → List W
  | 0 => []
  | n + 1 => lineNudges n ++ [W.lineNudgeIf n, W.lineNudge n]

/-- The per-texgen nudge loop of the Points path (lines 302-309), in loop
order. -/
def pointNudges : Nat → List W
  | 0 => []
  | n + 1 => pointNudges n ++
      [W.pointNudgeIf n, W.pointNudgeUl n, W.pointNudgeUr n, W.pointNudgeLr n,
       W.str "\t\x7d\n"]

/-- The line-cap offset computation (lines 169-181, one Write call). -/
def lineOffsetDecl : String :=
  "\tfloat2 offset;\n" ++
  "\tfloat2 to = abs(end.pos.xy / end.pos.w - start.pos.xy / start.pos.w);\n" ++
  "\tif (" ++ I_LINEPTPARAMS ++ ".y * to.y > " ++ I_LINEPTPARAMS ++ ".x * to.x) \x7b\n" ++
  "\t\toffset = float2(" ++ I_LINEPTPARAMS ++ ".z / " ++ I_LINEPTPARAMS ++ ".x, 0);\n" ++
  "\t\x7d else \x7b\n" ++
  "\t\toffset = float2(0, -" ++ I_LINEPTPARAMS ++ ".z / " ++ I_LINEPTPARAMS ++ ".y);\n" ++
  "\t\x7d\n"

/-- The point half-extent offset computation (lines 197-198, one Write). -/
def pointOffsetDecl : String :=
  "\tfloat2 offset = float2(" ++ I_LINEPTPARAMS ++ ".w / " ++ I_LINEPTPARAMS ++ ".x, -" ++
  I_LINEPTPARAMS ++ ".w / " ++ I_LINEPTPARAMS ++ ".y) * center.pos.w;\n"

/-- Lines 69-85: the OpenGL-family layout declarations. -/
def genLayoutPart (api : APIType) (cfg : ShaderHostConfig)
    (uid : geometry_shader_uid_data) : List W :=
  if api = APIType.OpenGL ∨ api = APIType.Vulkan then
    if cfg.backend_gs_instancing then
      [W.layoutInInstanced (primitives_ogl.getD uid.primitive_type "") (layers cfg),
       W.layoutOut cfg.wireframe (vertex_out uid cfg.wireframe)]
    else
      [W.layoutIn (primitives_ogl.getD uid.primitive_type ""),
       W.layoutOut cfg.wireframe (vertex_out uid cfg.wireframe * layers cfg)]
  else []

/-- Lines 87-102: lighting struct, GSBlock uniform block, VS_OUTPUT struct. -/
def genUniformPart (api : APIType) (uid : geometry_shader_uid_data) (pl : Bool) : List W :=
  [W.str s_lighting_struct]
  ++ (if api = APIType.OpenGL ∨ api = APIType.Vulkan then
        [W.str "UBO_BINDING(std140, 3) uniform GSBlock \x7b\n"]
      else [W.str "cbuffer GSBlock \x7b\n"])
  ++ [W.str ("\tfloat4 " ++ I_STEREOPARAMS ++ ";\n\tfloat4 " ++ I_LINEPTPARAMS ++
        ";\n\tint4 " ++ I_TEXOFFSET ++ ";\n\x7d;\n")]
  ++ [W.str "struct VS_OUTPUT \x7b\n",
      W.genVSOutputMembers api uid.numTexGens pl "",
      W.str "\x7d;\n"]

/-- Lines 104-150: stage interface declarations and the main-function
header. -/
def genIODeclPart (api : APIType) (cfg : ShaderHostConfig)
    (uid : geometry_shader_uid_data) (pl : Bool) : List W :=
  if api = APIType.OpenGL ∨ api = APIType.Vulkan then
    (if cfg.backend_gs_instancing then [W.str "#define InstanceID gl_InvocationID\n"] else [])
    ++ [W.str "VARYING_LOCATION(0) in VertexData \x7b\n",
        W.genVSOutputMembers api uid.numTexGens pl
          (GetInterpolationQualifier cfg.msaa cfg.ssaa true true),
        W.vsArrayEnd (vertex_in uid),
        W.str "VARYING_LOCATION(0) out VertexData \x7b\n",
        W.genVSOutputMembers api uid.numTexGens pl
          (GetInterpolationQualifier cfg.msaa cfg.ssaa true false)]
    ++ (if cfg.stereo ∨ cfg.more_layers ≠ 0 then [W.str "\tflat int layer;\n"] else [])
    ++ [W.str "\x7d ps;\n", W.str "void main()\n\x7b\n"]
  else
    [W.str "struct VertexData \x7b\n", W.str "\tVS_OUTPUT o;\n"]
    ++ (if cfg.stereo ∨ cfg.more_layers ≠ 0 then
          [W.str "\tuint layer : SV_RenderTargetArrayIndex;\n"] else [])
    ++ [W.str "\x7d;\n"]
    ++ (if cfg.backend_gs_instancing then
          [W.d3dMaxVertInstance (vertex_out uid cfg.wireframe) (layers cfg),
           W.d3dMainInstanced (primitives_d3d.getD uid.primitive_type "") (vertex_in uid)
             cfg.wireframe]
        else
          [W.d3dMaxVert (vertex_out uid cfg.wireframe * layers cfg),
           W.d3dMain (primitives_d3d.getD uid.primitive_type "") (vertex_in uid)
             cfg.wireframe])
    ++ [W.str "\tVertexData ps;\n"]

/-- Lines 152-199: primitive-specific input fetch and offset computation. -/
def genPrimSetupPart (api : APIType) (_cfg : ShaderHostConfig)
    (uid : geometry_shader_uid_data) (pl : Bool) : List W :=
  if uid.primitive_type = 1 then
    (if api = APIType.OpenGL ∨ api = APIType.Vulkan then
       [W.str "\tVS_OUTPUT start, end;\n",
        W.assignVSOutputMembers "start" "vs[0]" uid.numTexGens pl,
        W.assignVSOutputMembers "end" "vs[1]" uid.numTexGens pl]
     else [W.str "\tVS_OUTPUT start = o[0];\n", W.str "\tVS_OUTPUT end = o[1];\n"])
    ++ [W.str lineOffsetDecl]
  else if uid.primitive_type = 0 then
    (if api = APIType.OpenGL ∨ api = APIType.Vulkan then
       [W.str "\tVS_OUTPUT center;\n",
        W.assignVSOutputMembers "center" "vs[0]" uid.numTexGens pl]
     else [W.str "\tVS_OUTPUT center = o[0];\n"])
    ++ [W.str pointOffsetDecl]
  else []

/-- Lines 201-209: eye selection, by hardware invocation or by software
loop. -/
def genEyePart (cfg : ShaderHostConfig) : List W :=
  if cfg.stereo ∨ cfg.more_layers ≠ 0 then
    if cfg.backend_gs_instancing then [W.str "\tint eye = InstanceID;\n"]
    else [W.eyeLoop (layers cfg)]
  else []

/-- Lines 211-233: wireframe first declaration, per-vertex loop head, input
fetch, clip-distance consumption workaround. -/
def genLoopHeadPart (api : APIType) (cfg : ShaderHostConfig)
    (uid : geometry_shader_uid_data) (pl bug_broken_clip_distance : Bool) : List W :=
  (if cfg.wireframe then [W.str "\tVS_OUTPUT first;\n"] else [])
  ++ [W.vertexLoop (vertex_in uid)]
  ++ (if api = APIType.OpenGL ∨ api = APIType.Vulkan then
        [W.str "\tVS_OUTPUT f;\n",
         W.assignVSOutputMembers "f" "vs[i]" uid.numTexGens pl]
        ++ (if cfg.backend_depth_clamp ∧ bug_broken_clip_distance then
              [W.str "\tf.clipDist0 = gl_in[i].gl_ClipDistance[0];\n",
               W.str "\tf.clipDist1 = gl_in[i].gl_ClipDistance[1];\n"]
            else [])
      else [W.str "\tVS_OUTPUT f = o[i];\n"])

/-- Lines 235-263: layer selection and stereo/VR horizontal position shift. -/
def genStereoPart (api : APIType) (cfg : ShaderHostConfig) : List W :=
  if cfg.vr then
    [W.str "\tps.layer = eye;\n"]
    ++ (if api = APIType.OpenGL then [W.str "\tgl_Layer = eye;\n"] else [])
    ++ [W.str ("\tf.clipPos.x += " ++ I_STEREOPARAMS ++ "[eye] - " ++ I_STEREOPARAMS ++
          "[eye+2] * f.clipPos.w;\n"),
        W.str ("\tf.pos.x += " ++ I_STEREOPARAMS ++ "[eye] - " ++ I_STEREOPARAMS ++
          "[eye+2] * f.pos.w;\n")]
  else if cfg.stereo ∨ cfg.more_layers ≠ 0 then
    [W.str "\tps.layer = eye;\n"]
    ++ (if api = APIType.OpenGL ∨ api = APIType.Vulkan then
          [W.str "\tgl_Layer = eye;\n"] else [])
    ++ [W.str ("\tfloat hoffset = (eye == 0) ? " ++ I_STEREOPARAMS ++ ".x : " ++
          I_STEREOPARAMS ++ ".y;\n"),
        W.str ("\tf.pos.x += hoffset * (f.pos.w - " ++ I_STEREOPARAMS ++ ".z);\n")]
  else []

/-- Lines 265-320: primitive expansion and vertex emission. -/
def genPrimEmitPart (api : APIType) (cfg : ShaderHostConfig)
    (uid : geometry_shader_uid_data) (pl : Bool) : List W :=
  if uid.primitive_type = 1 then
    [W.str "\tVS_OUTPUT l = f;\n\tVS_OUTPUT r = f;\n",
     W.str "\tl.pos.xy -= offset * l.pos.w;\n\tr.pos.xy += offset * r.pos.w;\n",
     W.str ("\tif (" ++ I_TEXOFFSET ++ "[2] != 0) \x7b\n"),
     W.str ("\tfloat texOffset = 1.0 / float(" ++ I_TEXOFFSET ++ "[2]);\n")]
    ++ lineNudges uid.numTexGens
    ++ [W.str "\t\x7d\n"]
    ++ EmitVertex api cfg uid pl "l" true
    ++ EmitVertex api cfg uid pl "r" false
  else if uid.primitive_type = 0 then
    [W.str ("\tVS_OUTPUT ll = f;\n\tVS_OUTPUT lr = f;\n\tVS_OUTPUT ul = f;\n" ++
        "\tVS_OUTPUT ur = f;\n"),
     W.str ("\tll.pos.xy += float2(-1,-1) * offset;\n\tlr.pos.xy += float2(1,-1) * offset;\n" ++
        "\tul.pos.xy += float2(-1,1) * offset;\n\tur.pos.xy += offset;\n"),
     W.str ("\tif (" ++ I_TEXOFFSET ++ "[3] != 0) \x7b\n"),
     W.str ("\tfloat2 texOffset = float2(1.0 / float(" ++ I_TEXOFFSET ++
        "[3]), 1.0 / float(" ++ I_TEXOFFSET ++ "[3]));\n")]
    ++ pointNudges uid.numTexGens
    ++ [W.str "\t\x7d\n"]
    ++ EmitVertex api cfg uid pl "ll" true
    ++ EmitVertex api cfg uid pl "lr" false
    ++ EmitVertex api cfg uid pl "ul" false
    ++ EmitVertex api cfg uid pl "ur" false
  else
    EmitVertex api cfg uid pl "f" true

/-- Lines 324-329: primitive close, eye-loop close, main close. -/
def genTailPart (api : APIType) (cfg : ShaderHostConfig)
    (uid : geometry_shader_uid_data) (pl : Bool) : List W :=
  EndPrimitive api cfg uid pl
  ++ (if (cfg.stereo ∨ cfg.more_layers ≠ 0) ∧ cfg.backend_gs_instancing = false then
        [W.str "\t\x7d\n"] else [])
  ++ [W.str "\x7d\n"]

/-- GenerateGeometryShaderCode (lines 48-332), as the trace of its writes.
`pl` is the ambient g_ActiveConfig.bEnablePixelLighting (line 55) and
`bug_broken_clip_distance` the ambient
DriverDetails::HasBug(BUG_BROKEN_CLIP_DISTANCE) (line 222), both made
explicit parameters. -/
def GenerateGeometryShaderCode (api : APIType) (cfg : ShaderHostConfig)
    (uid : geometry_shader_uid_data) (pl bug_broken_clip_distance : Bool) : List W :=
  genLayoutPart api cfg uid
  ++ genUniformPart api uid pl
  ++ genIODeclPart api cfg uid pl
  ++ genPrimSetupPart api cfg uid pl
  ++ genEyePart cfg
  ++ genLoopHeadPart api cfg uid pl bug_broken_clip_distance
  ++ genStereoPart api cfg
  ++ genPrimEmitPart api cfg uid pl
  ++ [W.str "\t\x7d\n"]
  ++ genTailPart api cfg uid pl

/-- The full generated program text: the concatenation of all writes. -/
def shaderText (api : APIType) (cfg : ShaderHostConfig)
    (uid : geometry_shader_uid_data) (pl bug : Bool) : String :=
  String.join ((GenerateGeometryShaderCode api cfg uid pl bug).map render)

/-- GetGeometryShaderUid (lines 28-38): zero-fills the UID and sets the two
fields; the global xfmem.numTexGen.numTexGens is passed explicitly. -/
def GetGeometryShaderUid (primitive_type : PrimitiveType) (numTexGens : Nat) :
    geometry_shader_uid_data :=
  ⟨primitive_type.toU32, numTexGens⟩

/-- geometry_shader_uid_data::IsPassthrough (lines 21-26); the process-global
g_ActiveConfig it reads is passed explicitly. -/
def geometry_shader_uid_data.IsPassthrough (uid : geometry_shader_uid_data)
    (g : ActiveConfig) : Bool :=
  let stereo : Bool := decide (0 < g.iStereoMode)
  let wireframe : Bool := g.bWireFrame
  decide (PrimitiveType.Triangles.toU32 ≤ uid.primitive_type) && !stereo && !wireframe

/-- EnumerateGeometryShaderUids (lines 382-402): the sequence of UIDs passed
to the callback, in order; g_ActiveConfig.backend_info.bSupportsPrimitiveRestart
is passed explicitly. -/
def EnumerateGeometryShaderUids (bSupportsPrimitiveRestart : Bool) :
    List geometry_shader_uid_data :=
  let primitive_lut : List PrimitiveType :=
    [if bSupportsPrimitiveRestart then PrimitiveType.TriangleStrip
     else PrimitiveType.Triangles,
     PrimitiveType.Lines, PrimitiveType.Points]
  primitive_lut.flatMap fun primitive =>
    (List.range 9).map fun texgens => ⟨primitive.toU32, texgens⟩

/-- The uid_data as GenerateAvatarGeometryShader fills it in (lines 420, 459):
primitive_type from the argument, numTexGens hard-set to 1. -/
def avatarUid (prim : PrimitiveType) : geometry_shader_uid_data :=
  ⟨prim.toU32, 1⟩

/-- The avatar line-cap offset computation (lines 547-559, one Write): like
`lineOffsetDecl` but without the perspective divide in `to`. -/
def avatarLineOffsetDecl : String :=
  "\tfloat2 offset;\n" ++
  "\tfloat2 to = abs(end.pos.xy - start.pos.xy);\n" ++
  "\tif (" ++ I_LINEPTPARAMS ++ ".y * to.y > " ++ I_LINEPTPARAMS ++ ".x * to.x) \x7b\n" ++
  "\t\toffset = float2(" ++ I_LINEPTPARAMS ++ ".z / " ++ I_LINEPTPARAMS ++ ".x, 0);\n" ++
  "\t\x7d else \x7b\n" ++
  "\t\toffset = float2(0, -" ++ I_LINEPTPARAMS ++ ".z / " ++ I_LINEPTPARAMS ++ ".y);\n" ++
  "\t\x7d\n"

/-- The avatar per-texgen point-nudge loop (lines 680-687), in loop order;
note it nudges ll/lr/ur. -/
def avatarPointNudges : Nat → List W
  | 0 => []
  | n + 1 => avatarPointNudges n ++
      [W.pointNudgeIf n, W.avatarNudgeLl n, W.avatarNudgeLr n, W.avatarNudgeUr n,
       W.str "\t\x7d\n"]

/-- Avatar lines 429-446: OpenGL-only layout declarations. -/
def avLayoutPart (api : APIType) (cfg : ShaderHostConfig) (prim : PrimitiveType) : List W :=
  if api = APIType.OpenGL then
    if cfg.backend_gs_instancing then
      [W.layoutInInstanced (primitives_ogl.getD prim.toU32 "") (layers cfg),
       W.layoutOut cfg.wireframe (vertex_out (avatarUid prim) cfg.wireframe)]
    else
      [W.layoutIn (primitives_ogl.getD prim.toU32 ""),
       W.layoutOut cfg.wireframe (vertex_out (avatarUid prim) cfg.wireframe * layers cfg)]
  else []

/-- Avatar lines 448-466: uniform block and fixed VS_OUTPUT struct. -/
def avUniformPart (api : APIType) (bindingLayout : Bool) : List W :=
  (if api = APIType.OpenGL then [W.gsBlockAvatar bindingLayout]
   else [W.str "cbuffer GSBlock \x7b\n"])
  ++ [W.str ("\tfloat4 " ++ I_STEREOPARAMS ++ ";\n\tfloat4 " ++ I_LINEPTPARAMS ++
       ";\n\tint4 " ++ I_TEXOFFSET ++ ";\n\x7d;\n")]
  ++ [W.str "struct VS_OUTPUT \x7b\n",
      W.defineOutputMember api "" "float4" "pos" (-1) "POSITION" (-1),
      W.defineOutputMember api "" "float4" "colors_" 0 "COLOR" 0,
      W.defineOutputMember api "" "float3" "tex" 0 "TEXCOORD" 0,
      W.str "\x7d;\n"]

/-- Avatar lines 468-520: stage interface declarations and main header. -/
def avIODeclPart (api : APIType) (cfg : ShaderHostConfig) (prim : PrimitiveType)
    (bindingLayout : Bool) : List W :=
  if api = APIType.OpenGL then
    (if cfg.backend_gs_instancing then [W.str "#define InstanceID gl_InvocationID\n"] else [])
    ++ [W.str "in VertexData \x7b\n"]
    ++ (let qual := if bindingLayout then "centroid" else "centroid in"
        [W.defineOutputMember api qual "float4" "pos" (-1) "POSITION" (-1),
         W.defineOutputMember api qual "float4" "colors_" 0 "COLOR" 0,
         W.defineOutputMember api qual "float3" "tex" 0 "TEXCOORD" 0])
    ++ [W.vsArrayEnd (vertex_in (avatarUid prim))]
    ++ [W.str "out VertexData \x7b\n"]
    ++ (let qual := if bindingLayout then "centroid" else "centroid out"
        [W.defineOutputMember api qual "float4" "pos" (-1) "POSITION" (-1),
         W.defineOutputMember api qual "float4" "colors_" 0 "COLOR" 0,
         W.defineOutputMember api qual "float3" "tex" 0 "TEXCOORD" 0])
    ++ (if cfg.stereo ∨ cfg.more_layers ≠ 0 then [W.str "\tflat int layer;\n"] else [])
    ++ [W.str "\x7d ps;\n", W.str "void main()\n\x7b\n"]
  else
    [W.str "struct VertexData \x7b\n", W.str "\tVS_OUTPUT o;\n"]
    ++ (if cfg.stereo ∨ cfg.more_layers ≠ 0 then
          [W.str "\tuint layer : SV_RenderTargetArrayIndex;\n"] else [])
    ++ [W.str "\x7d;\n"]
    ++ (if cfg.backend_gs_instancing then
          [W.d3dMaxVertInstance (vertex_out (avatarUid prim) cfg.wireframe) (layers cfg),
           W.d3dMainInstanced (primitives_d3d.getD prim.toU32 "")
             (vertex_in (avatarUid prim)) cfg.wireframe]
        else
          [W.d3dMaxVert (vertex_out (avatarUid prim) cfg.wireframe * layers cfg),
           W.d3dMain (primitives_d3d.getD prim.toU32 "")
             (vertex_in (avatarUid prim)) cfg.wireframe])
    ++ [W.str "\tVertexData ps;\n"]

/-- Avatar lines 522-581: primitive-specific input fetch and offset
computation. -/
def avPrimSetupPart (api : APIType) (prim : PrimitiveType) : List W :=
  if prim = PrimitiveType.Lines then
    (if api = APIType.OpenGL then
       [W.str "\tVS_OUTPUT start, end;\n",
        W.avatarPosCopy "start" "vs[0]", W.avatarColorCopy "start" "vs[0]",
        W.avatarTexCopy "start" 0 "vs[0]" 0,
        W.avatarPosCopy "end" "vs[1]", W.avatarColorCopy "end" "vs[1]",
        W.avatarTexCopy "end" 0 "vs[1]" 0]
     else [W.str "\tVS_OUTPUT start = o[0];\n", W.str "\tVS_OUTPUT end = o[1];\n"])
    ++ [W.str avatarLineOffsetDecl]
  else if prim = PrimitiveType.Points then
    (if api = APIType.OpenGL then
       [W.str "\tVS_OUTPUT center;\n",
        W.avatarPosCopy "center" "vs[0]", W.avatarColorCopy "center" "vs[0]",
        W.avatarTexCopy "center" 0 "vs[0]" 0]
     else [W.str "\tVS_OUTPUT center = o[0];\n"])
    ++ [W.str pointOffsetDecl]
  else []

/-- Avatar lines 583-591: eye selection; the software loop bound is the
literal constant 2. -/
def avEyePart (cfg : ShaderHostConfig) : List W :=
  if cfg.stereo ∨ cfg.more_layers ≠ 0 then
    if cfg.backend_gs_instancing then [W.str "\tint eye = InstanceID;\n"]
    else [W.str "\tfor (int eye = 0; eye < 2; ++eye) \x7b\n"]
  else []

/-- Avatar lines 593-610: wireframe first declaration, vertex loop head and
input fetch. -/
def avLoopHeadPart (api : APIType) (cfg : ShaderHostConfig) (prim : PrimitiveType) : List W :=
  (if cfg.wireframe then [W.str "\tVS_OUTPUT first;\n"] else [])
  ++ [W.vertexLoop (vertex_in (avatarUid prim))]
  ++ (if api = APIType.OpenGL then
        [W.str "\tVS_OUTPUT f;\n",
         W.avatarPosCopy "f" "vs[i]", W.avatarColorCopy "f" "vs[i]",
         W.avatarTexCopy "f" 0 "vs[i]" 0]
      else [W.str "\tVS_OUTPUT f = o[i];\n"])

/-- Avatar lines 612-641: layer selection and stereo/VR position shift. -/
def avStereoPart (api : APIType) (cfg : ShaderHostConfig) : List W :=
  if cfg.vr then
    [W.str "\tps.layer = eye;\n"]
    ++ (if api = APIType.OpenGL then [W.str "\tgl_Layer = eye;\n"] else [])
    ++ [W.str ("\tf.pos.x += " ++ I_STEREOPARAMS ++ "[eye] - " ++ I_STEREOPARAMS ++
          "[eye+2] * f.pos.w;\n")]
  else if cfg.stereo ∨ cfg.more_layers ≠ 0 then
    [W.str "\tps.layer = eye;\n"]
    ++ (if api = APIType.OpenGL then [W.str "\tgl_Layer = eye;\n"] else [])
    ++ [W.str ("\tf.pos.x += " ++ I_STEREOPARAMS ++ "[eye] * (f.pos.w - " ++
          I_STEREOPARAMS ++ "[2]);\n")]
  else []

/-- Avatar lines 643-698: primitive expansion and vertex emission (the nudge
loops run over uid_data->numTexGens == 1, respectively the literal bound 1). -/
def avPrimEmitPart (api : APIType) (cfg : ShaderHostConfig) (prim : PrimitiveType)
    (pl : Bool) : List W :=
  if prim = PrimitiveType.Lines then
    [W.str "\tVS_OUTPUT l = f;\n\tVS_OUTPUT r = f;\n",
     W.str "\tl.pos.xy -= offset * l.pos.w;\n\tr.pos.xy += offset * r.pos.w;\n",
     W.str ("\tif (" ++ I_TEXOFFSET ++ "[2] != 0) \x7b\n"),
     W.str ("\tfloat texOffset = 1.0 / float(" ++ I_TEXOFFSET ++ "[2]);\n")]
    ++ lineNudges 1
    ++ [W.str "\t\x7d\n"]
    ++ EmitVertex api cfg (avatarUid prim) pl "l" true
    ++ EmitVertex api cfg (avatarUid prim) pl "r" false
  else if prim = PrimitiveType.Points then
    [W.str ("\tVS_OUTPUT ll = f;\n\tVS_OUTPUT lr = f;\n\tVS_OUTPUT ul = f;\n" ++
        "\tVS_OUTPUT ur = f;\n"),
     W.str ("\tll.pos.xy += float2(-1,-1) * offset;\n\tlr.pos.xy += float2(1,-1) * offset;\n" ++
        "\tul.pos.xy += float2(-1,1) * offset;\n\tur.pos.xy += offset;\n"),
     W.str ("\tif (" ++ I_TEXOFFSET ++ "[3] != 0) \x7b\n"),
     W.str ("\tfloat2 texOffset = float2(1.0 / float(" ++ I_TEXOFFSET ++
        "[3]), 1.0 / float(" ++ I_TEXOFFSET ++ "[3]));\n")]
    ++ avatarPointNudges 1
    ++ [W.str "\t\x7d\n"]
    ++ EmitVertex api cfg (avatarUid prim) pl "ll" true
    ++ EmitVertex api cfg (avatarUid prim) pl "lr" false
    ++ EmitVertex api cfg (avatarUid prim) pl "ul" false
    ++ EmitVertex api cfg (avatarUid prim) pl "ur" false
  else
    EmitVertex api cfg (avatarUid prim) pl "f" true

/-- GenerateAvatarGeometryShader (lines 404-709), as the trace of its writes.
`pl` is the ambient g_ActiveConfig.bEnablePixelLighting (line 410) and
`bindingLayout` the ambient
g_ActiveConfig.backend_info.bSupportsBindingLayout (lines 451, 474, 481). -/
def GenerateAvatarGeometryShader (prim : PrimitiveType) (api : APIType)
    (cfg : ShaderHostConfig) (pl bindingLayout : Bool) : List W :=
  avLayoutPart api cfg prim
  ++ avUniformPart api bindingLayout
  ++ avIODeclPart api cfg prim bindingLayout
  ++ avPrimSetupPart api prim
  ++ avEyePart cfg
  ++ avLoopHeadPart api cfg prim
  ++ avStereoPart api cfg
  ++ avPrimEmitPart api cfg prim pl
  ++ [W.str "\t\x7d\n"]
  ++ EndPrimitive api cfg (avatarUid prim) pl
  ++ (if (cfg.stereo ∨ cfg.more_layers ≠ 0) ∧ cfg.backend_gs_instancing = false then
        [W.str "\t\x7d\n"] else [])
  ++ [W.str "\x7d\n"]

/-! ### Claims -/

/-- C1: generation is deterministic --- it is a pure function of
`(api, host config, uid)` plus the ambient pixel-lighting and driver-bug
globals, and two UIDs with equal bit patterns yield equal traces and
byte-identical text. -/
theorem generation_deterministic (api : APIType) (cfg : ShaderHostConfig)
    (u1 u2 : geometry_shader_uid_data) (pl bug : Bool)
    (h1 : u1.primitive_type < 2 ^ 32) (h2 : u1.numTexGens < 2 ^ 32)
    (h3 : u2.primitive_type < 2 ^ 32) (h4 : u2.numTexGens < 2 ^ 32)
    (hbits : uidBits u1 = uidBits u2) :
    GenerateGeometryShaderCode api cfg u1 pl bug =
      GenerateGeometryShaderCode api cfg u2 pl bug ∧
    shaderText api cfg u1 pl bug = shaderText api cfg u2 pl bug := by
  have hu : u1 = u2 := by
    unfold uidBits at hbits
    rw [Nat.mod_eq_of_lt h1, Nat.mod_eq_of_lt h2, Nat.mod_eq_of_lt h3,
      Nat.mod_eq_of_lt h4] at hbits
    cases u1
    cases u2
    dsimp only at hbits h1 h2 h3 h4
    simp only [geometry_shader_uid_data.mk.injEq]
    omega
  subst hu
  exact ⟨rfl, rfl⟩

/-- Witness for C1 at a concrete input. -/
theorem generation_deterministic_witness :
    GenerateGeometryShaderCode APIType.OpenGL
        ⟨false, false, false, false, 0, false, false, false⟩ ⟨1, 2⟩ false false =
      GenerateGeometryShaderCode APIType.OpenGL
        ⟨false, false, false, false, 0, false, false, false⟩ ⟨1, 2⟩ false false ∧
    shaderText APIType.OpenGL
        ⟨false, false, false, false, 0, false, false, false⟩ ⟨1, 2⟩ false false =
      shaderText APIType.OpenGL
        ⟨false, false, false, false, 0, false, false, false⟩ ⟨1, 2⟩ false false :=
  generation_deterministic APIType.OpenGL
    ⟨false, false, false, false, 0, false, false, false⟩ ⟨1, 2⟩ ⟨1, 2⟩ false false
    (by decide) (by decide) (by decide) (by decide) rfl

/-- C4: for either setting of the primitive-restart capability, the
enumerator yields exactly 27 UIDs, their bit patterns are pairwise distinct,
and re-running yields the same sequence. -/
theorem enumerate_uids_spec (restart : Bool) :
    (EnumerateGeometryShaderUids restart).length = 27 ∧
    ((EnumerateGeometryShaderUids restart).map uidBits).Nodup ∧
    EnumerateGeometryShaderUids restart = EnumerateGeometryShaderUids restart := by
  refine ⟨?_, ?_, rfl⟩ <;> cases restart <;> decide

/-- C9: IsPassthrough is true iff the primitive is Triangles or TriangleStrip
and the (global-config) stereo-mode and wireframe flags are off; the flags
are read from the g_ActiveConfig singleton, which the embedding passes as
the explicit `g` parameter. -/
theorem isPassthrough_iff (g : ActiveConfig) (uid : geometry_shader_uid_data)
    (hp : uid.primitive_type < 4) :
    uid.IsPassthrough g = true ↔
      ((uid.primitive_type = PrimitiveType.Triangles.toU32 ∨
        uid.primitive_type = PrimitiveType.TriangleStrip.toU32) ∧
       g.iStereoMode = 0 ∧ g.bWireFrame = false) := by
  unfold geometry_shader_uid_data.IsPassthrough
  simp only [PrimitiveType.toU32, Bool.and_eq_true, Bool.not_eq_true',
    decide_eq_true_eq, decide_eq_false_iff_not]
  constructor
  · rintro ⟨⟨hge, hs⟩, hw⟩
    exact ⟨by omega, by omega, hw⟩
  · rintro ⟨hor, hs, hw⟩
    exact ⟨⟨by omega, by omega⟩, hw⟩

/-- Witness for C9 at a concrete input. -/
theorem isPassthrough_iff_witness :
    (⟨2, 0⟩ : geometry_shader_uid_data).IsPassthrough ⟨0, false, false, false, false⟩ =
      true :=
  (isPassthrough_iff ⟨0, false, false, false, false⟩ ⟨2, 0⟩ (by decide)).mpr
    ⟨Or.inl rfl, rfl, rfl⟩

/-! ### Trace-membership helpers -/

theorem mem_gen_parts {w : W} {api : APIType} {cfg : ShaderHostConfig}
    {uid : geometry_shader_uid_data} {pl bug : Bool}
    (h : w ∈ genLayoutPart api cfg uid ∨ w ∈ genUniformPart api uid pl ∨
         w ∈ genIODeclPart api cfg uid pl ∨ w ∈ genPrimSetupPart api cfg uid pl ∨
         w ∈ genEyePart cfg ∨ w ∈ genLoopHeadPart api cfg uid pl bug ∨
         w ∈ genStereoPart api cfg ∨ w ∈ genPrimEmitPart api cfg uid pl ∨
         w = W.str "\t\x7d\n" ∨ w ∈ genTailPart api cfg uid pl) :
    w ∈ GenerateGeometryShaderCode api cfg uid pl bug := by
  unfold GenerateGeometryShaderCode
  simp only [List.mem_append, List.mem_singleton]
  tauto

theorem eyeLoop_notin_lineNudges (k n : Nat) : W.eyeLoop k ∉ lineNudges n := by
  induction n with
  | zero => simp [lineNudges]
  | succ n ih => simp [lineNudges, ih]

theorem eyeLoop_notin_pointNudges (k n : Nat) : W.eyeLoop k ∉ pointNudges n := by
  induction n with
  | zero => simp [pointNudges]
  | succ n ih => simp [pointNudges, ih]

theorem eyeLoop_notin_EmitVertex (k : Nat) (api : APIType) (cfg : ShaderHostConfig)
    (uid : geometry_shader_uid_data) (pl : Bool) (v : String) (fv : Bool) :
    W.eyeLoop k ∉ EmitVertex api cfg uid pl v fv := by
  unfold EmitVertex
  split_ifs <;> simp

theorem eyeLoop_notin_EndPrimitive (k : Nat) (api : APIType) (cfg : ShaderHostConfig)
    (uid : geometry_shader_uid_data) (pl : Bool) :
    W.eyeLoop k ∉ EndPrimitive api cfg uid pl := by
  unfold EndPrimitive
  split_ifs <;> simp [eyeLoop_notin_EmitVertex]

theorem eyeLoop_notin_genLayoutPart (k : Nat) (api : APIType) (cfg : ShaderHostConfig)
    (uid : geometry_shader_uid_data) : W.eyeLoop k ∉ genLayoutPart api cfg uid := by
  unfold genLayoutPart
  split_ifs <;> simp

theorem eyeLoop_notin_genUniformPart (k : Nat) (api : APIType)
    (uid : geometry_shader_uid_data) (pl : Bool) : W.eyeLoop k ∉ genUniformPart api uid pl := by
  unfold genUniformPart
  split_ifs <;> simp

theorem eyeLoop_notin_genIODeclPart (k : Nat) (api : APIType) (cfg : ShaderHostConfig)
    (uid : geometry_shader_uid_data) (pl : Bool) :
    W.eyeLoop k ∉ genIODeclPart api cfg uid pl := by
  unfold genIODeclPart
  split_ifs <;> simp

theorem eyeLoop_notin_genPrimSetupPart (k : Nat) (api : APIType) (cfg : ShaderHostConfig)
    (uid : geometry_shader_uid_data) (pl : Bool) :
    W.eyeLoop k ∉ genPrimSetupPart api cfg uid pl := by
  unfold genPrimSetupPart
  split_ifs <;> simp

theorem eyeLoop_notin_genEyePart (k : Nat) (cfg : ShaderHostConfig)
    (hinst : cfg.backend_gs_instancing = true) : W.eyeLoop k ∉ genEyePart cfg := by
  unfold genEyePart
  split_ifs <;> simp_all

theorem eyeLoop_notin_genLoopHeadPart (k : Nat) (api : APIType) (cfg : ShaderHostConfig)
    (uid : geometry_shader_uid_data) (pl bug : Bool) :
    W.eyeLoop k ∉ genLoopHeadPart api cfg uid pl bug := by
  unfold genLoopHeadPart
  split_ifs <;> simp

theorem eyeLoop_notin_genStereoPart (k : Nat) (api : APIType) (cfg : ShaderHostConfig) :
    W.eyeLoop k ∉ genStereoPart api cfg := by
  unfold genStereoPart
  split_ifs <;> simp

theorem eyeLoop_notin_genPrimEmitPart (k : Nat) (api : APIType) (cfg : ShaderHostConfig)
    (uid : geometry_shader_uid_data) (pl : Bool) :
    W.eyeLoop k ∉ genPrimEmitPart api cfg uid pl := by
  unfold genPrimEmitPart
  split_ifs <;>
    simp [eyeLoop_notin_lineNudges, eyeLoop_notin_pointNudges, eyeLoop_notin_EmitVertex]

theorem eyeLoop_notin_genTailPart (k : Nat) (api : APIType) (cfg : ShaderHostConfig)
    (uid : geometry_shader_uid_data) (pl : Bool) :
    W.eyeLoop k ∉ genTailPart api cfg uid pl := by
  unfold genTailPart
  split_ifs <;> simp [eyeLoop_notin_EndPrimitive]

theorem eyeLoop_notin_gen (k : Nat) (api : APIType) (cfg : ShaderHostConfig)
    (uid : geometry_shader_uid_data) (pl bug : Bool)
    (hinst : cfg.backend_gs_instancing = true) :
    W.eyeLoop k ∉ GenerateGeometryShaderCode api cfg uid pl bug := by
  unfold GenerateGeometryShaderCode
  simp [List.mem_append, eyeLoop_notin_genLayoutPart, eyeLoop_notin_genUniformPart,
    eyeLoop_notin_genIODeclPart, eyeLoop_notin_genPrimSetupPart,
    eyeLoop_notin_genEyePart k cfg hinst, eyeLoop_notin_genLoopHeadPart,
    eyeLoop_notin_genStereoPart, eyeLoop_notin_genPrimEmitPart, eyeLoop_notin_genTailPart]

/-- C2: the layer count is `more_layers*2 + (stereo?1:0) + 1`; with GPU
instancing the declarations are `invocations = layers` / `max_vertices =
vertex_out`, no software eye loop is present and (when multi-layer output is
requested) eye is bound to the invocation identifier; without instancing the
declaration is `max_vertices = vertex_out * layers` and the software eye loop
over `[0, layers)` is emitted. -/
theorem layer_law (api : APIType) (cfg : ShaderHostConfig) (uid : geometry_shader_uid_data)
    (pl bug : Bool) (hapi : api = APIType.OpenGL ∨ api = APIType.Vulkan) :
    layers cfg = cfg.more_layers * 2 + (if cfg.stereo then 1 else 0) + 1 ∧
    (cfg.backend_gs_instancing = true →
      W.layoutInInstanced (primitives_ogl.getD uid.primitive_type "") (layers cfg) ∈
        GenerateGeometryShaderCode api cfg uid pl bug ∧
      W.layoutOut cfg.wireframe (vertex_out uid cfg.wireframe) ∈
        GenerateGeometryShaderCode api cfg uid pl bug ∧
      (∀ k, W.eyeLoop k ∉ GenerateGeometryShaderCode api cfg uid pl bug) ∧
      ((cfg.stereo = true ∨ cfg.more_layers ≠ 0) →
        W.str "\tint eye = InstanceID;\n" ∈ GenerateGeometryShaderCode api cfg uid pl bug)) ∧
    (cfg.backend_gs_instancing = false →
      W.layoutIn (primitives_ogl.getD uid.primitive_type "") ∈
        GenerateGeometryShaderCode api cfg uid pl bug ∧
      W.layoutOut cfg.wireframe (vertex_out uid cfg.wireframe * layers cfg) ∈
        GenerateGeometryShaderCode api cfg uid pl bug ∧
      ((cfg.stereo = true ∨ cfg.more_layers ≠ 0) →
        W.eyeLoop (layers cfg) ∈ GenerateGeometryShaderCode api cfg uid pl bug)) := by
  refine ⟨rfl,
    fun hinst => ⟨?_, ?_, fun k => eyeLoop_notin_gen k api cfg uid pl bug hinst,
      fun hsm => ?_⟩,
    fun hinst => ⟨?_, ?_, fun hsm => ?_⟩⟩
  · exact mem_gen_parts (Or.inl (by unfold genLayoutPart; rw [if_pos hapi]; simp [hinst]))
  · exact mem_gen_parts (Or.inl (by unfold genLayoutPart; rw [if_pos hapi]; simp [hinst]))
  · refine mem_gen_parts (Or.inr (Or.inr (Or.inr (Or.inr (Or.inl ?_)))))
    unfold genEyePart
    rw [if_pos hsm]
    simp [hinst]
  · exact mem_gen_parts (Or.inl (by unfold genLayoutPart; rw [if_pos hapi]; simp [hinst]))
  · exact mem_gen_parts (Or.inl (by unfold genLayoutPart; rw [if_pos hapi]; simp [hinst]))
  · refine mem_gen_parts (Or.inr (Or.inr (Or.inr (Or.inr (Or.inl ?_)))))
    unfold genEyePart
    rw [if_pos hsm]
    simp [hinst]

/-- Witness for C2 at a concrete input (stereo, instancing on). -/
theorem layer_law_witness :
    layers ⟨false, false, false, true, 0, false, true, false⟩ = 2 ∧
    W.str "\tint eye = InstanceID;\n" ∈
      GenerateGeometryShaderCode APIType.OpenGL
        ⟨false, false, false, true, 0, false, true, false⟩ ⟨2, 0⟩ false false ∧
    (∀ k, W.eyeLoop k ∉
      GenerateGeometryShaderCode APIType.OpenGL
        ⟨false, false, false, true, 0, false, true, false⟩ ⟨2, 0⟩ false false) := by
  have h := layer_law APIType.OpenGL ⟨false, false, false, true, 0, false, true, false⟩
    ⟨2, 0⟩ false false (Or.inl rfl)
  exact ⟨rfl, (h.2.1 rfl).2.2.2 (Or.inl rfl), (h.2.1 rfl).2.2.1⟩

/-- C3: the vertex-out bound is `(TriangleStrip ? 3 : 4) + (wireframe ? 1 :
0)`, independent of the texgen count, and the declared input primitive size
`vs[vertex_in]` uses 1 for Points, 2 for Lines, 3 for Triangles and
TriangleStrip. -/
theorem vertex_count_law (api : APIType) (cfg : ShaderHostConfig)
    (uid : geometry_shader_uid_data) (pl bug : Bool)
    (hapi : api = APIType.OpenGL ∨ api = APIType.Vulkan) :
    vertex_out uid cfg.wireframe =
      (if uid.primitive_type = PrimitiveType.TriangleStrip.toU32 then 3 else 4) +
        (if cfg.wireframe then 1 else 0) ∧
    (∀ (p n₁ n₂ : Nat) (w : Bool), vertex_out ⟨p, n₁⟩ w = vertex_out ⟨p, n₂⟩ w) ∧
    (∀ n : Nat,
      vertex_in ⟨PrimitiveType.Points.toU32, n⟩ = 1 ∧
      vertex_in ⟨PrimitiveType.Lines.toU32, n⟩ = 2 ∧
      vertex_in ⟨PrimitiveType.Triangles.toU32, n⟩ = 3 ∧
      vertex_in ⟨PrimitiveType.TriangleStrip.toU32, n⟩ = 3) ∧
    W.vsArrayEnd (vertex_in uid) ∈ GenerateGeometryShaderCode api cfg uid pl bug := by
  refine ⟨rfl, fun p n₁ n₂ w => rfl, fun n => ⟨rfl, rfl, rfl, rfl⟩, ?_⟩
  refine mem_gen_parts (Or.inr (Or.inr (Or.inl ?_)))
  unfold genIODeclPart
  rw [if_pos hapi]
  simp

/-- Witness for C3 at a concrete input. -/
theorem vertex_count_law_witness :
    vertex_out ⟨1, 5⟩ true = 5 ∧
    W.vsArrayEnd 2 ∈
      GenerateGeometryShaderCode APIType.OpenGL
        ⟨true, false, false, false, 0, false, false, false⟩ ⟨1, 5⟩ false false := by
  have h := vertex_count_law APIType.OpenGL
    ⟨true, false, false, false, 0, false, false, false⟩ ⟨1, 5⟩ false false (Or.inl rfl)
  exact ⟨rfl, h.2.2.2⟩

theorem glPosition_mem_EmitVertex (api : APIType) (cfg : ShaderHostConfig)
    (uid : geometry_shader_uid_data) (pl : Bool) (v : String) (fv : Bool)
    (hapi : api = APIType.OpenGL ∨ api = APIType.Vulkan) :
    W.glPosition v ∈ EmitVertex api cfg uid pl v fv := by
  unfold EmitVertex
  rcases hapi with h | h <;> subst h <;> simp

theorem psAssign_mem_EmitVertex (cfg : ShaderHostConfig)
    (uid : geometry_shader_uid_data) (pl : Bool) (v : String) (fv : Bool) :
    W.psAssign v ∈ EmitVertex APIType.D3D cfg uid pl v fv := by
  unfold EmitVertex
  simp

theorem firstCapture_mem_EmitVertex (api : APIType) (cfg : ShaderHostConfig)
    (uid : geometry_shader_uid_data) (pl : Bool) (v : String)
    (hwf : cfg.wireframe = true) :
    W.firstCapture v ∈ EmitVertex api cfg uid pl v true := by
  unfold EmitVertex
  simp [hwf]

/-- C5: for Lines, the generated shader computes the offset by comparing
`lineParam.y·|dy|` against `lineParam.x·|dx|`, taking the left/right extension
when the line is more tall and the up/down extension when it is more wide
(the source's axis-aligned line-cap quirk), and per original vertex emits
`l = f` with `l.pos -= offset·l.pos.w` and `r = f` with
`r.pos += offset·r.pos.w`. -/
theorem lines_cap_quirk (api : APIType) (cfg : ShaderHostConfig)
    (uid : geometry_shader_uid_data) (pl bug : Bool)
    (hprim : uid.primitive_type = PrimitiveType.Lines.toU32) :
    lineOffsetDecl =
      "\tfloat2 offset;\n" ++
      "\tfloat2 to = abs(end.pos.xy / end.pos.w - start.pos.xy / start.pos.w);\n" ++
      "\tif (clinept.y * to.y > clinept.x * to.x) \x7b\n" ++
      "\t\toffset = float2(clinept.z / clinept.x, 0);\n" ++
      "\t\x7d else \x7b\n" ++
      "\t\toffset = float2(0, -clinept.z / clinept.y);\n" ++
      "\t\x7d\n" ∧
    W.str lineOffsetDecl ∈ GenerateGeometryShaderCode api cfg uid pl bug ∧
    W.str "\tVS_OUTPUT l = f;\n\tVS_OUTPUT r = f;\n" ∈
      GenerateGeometryShaderCode api cfg uid pl bug ∧
    W.str "\tl.pos.xy -= offset * l.pos.w;\n\tr.pos.xy += offset * r.pos.w;\n" ∈
      GenerateGeometryShaderCode api cfg uid pl bug ∧
    (api = APIType.OpenGL ∨ api = APIType.Vulkan →
      W.glPosition "l" ∈ GenerateGeometryShaderCode api cfg uid pl bug ∧
      W.glPosition "r" ∈ GenerateGeometryShaderCode api cfg uid pl bug) ∧
    (api = APIType.D3D →
      W.psAssign "l" ∈ GenerateGeometryShaderCode api cfg uid pl bug ∧
      W.psAssign "r" ∈ GenerateGeometryShaderCode api cfg uid pl bug) := by
  have hp1 : uid.primitive_type = 1 := by simpa [PrimitiveType.toU32] using hprim
  refine ⟨rfl, ?_, ?_, ?_, fun hapi => ⟨?_, ?_⟩, fun hd3d => ⟨?_, ?_⟩⟩
  · refine mem_gen_parts (Or.inr (Or.inr (Or.inr (Or.inl ?_))))
    unfold genPrimSetupPart
    rw [if_pos hp1]
    simp
  · refine mem_gen_parts (Or.inr (Or.inr (Or.inr (Or.inr (Or.inr (Or.inr (Or.inr
      (Or.inl ?_))))))))
    unfold genPrimEmitPart
    rw [if_pos hp1]
    simp
  · refine mem_gen_parts (Or.inr (Or.inr (Or.inr (Or.inr (Or.inr (Or.inr (Or.inr
      (Or.inl ?_))))))))
    unfold genPrimEmitPart
    rw [if_pos hp1]
    simp
  · refine mem_gen_parts (Or.inr (Or.inr (Or.inr (Or.inr (Or.inr (Or.inr (Or.inr
      (Or.inl ?_))))))))
    unfold genPrimEmitPart
    rw [if_pos hp1]
    exact List.mem_append_left _
      (List.mem_append_right _ (glPosition_mem_EmitVertex api cfg uid pl "l" true hapi))
  · refine mem_gen_parts (Or.inr (Or.inr (Or.inr (Or.inr (Or.inr (Or.inr (Or.inr
      (Or.inl ?_))))))))
    unfold genPrimEmitPart
    rw [if_pos hp1]
    exact List.mem_append_right _ (glPosition_mem_EmitVertex api cfg uid pl "r" false hapi)
  · subst hd3d
    refine mem_gen_parts (Or.inr (Or.inr (Or.inr (Or.inr (Or.inr (Or.inr (Or.inr
      (Or.inl ?_))))))))
    unfold genPrimEmitPart
    rw [if_pos hp1]
    exact List.mem_append_left _
      (List.mem_append_right _ (psAssign_mem_EmitVertex cfg uid pl "l" true))
  · subst hd3d
    refine mem_gen_parts (Or.inr (Or.inr (Or.inr (Or.inr (Or.inr (Or.inr (Or.inr
      (Or.inl ?_))))))))
    unfold genPrimEmitPart
    rw [if_pos hp1]
    exact List.mem_append_right _ (psAssign_mem_EmitVertex cfg uid pl "r" false)

/-- Witness for C5 at a concrete input. -/
theorem lines_cap_quirk_witness :
    W.str lineOffsetDecl ∈
      GenerateGeometryShaderCode APIType.OpenGL
        ⟨false, false, false, false, 0, false, false, false⟩ ⟨1, 2⟩ false false ∧
    W.glPosition "l" ∈
      GenerateGeometryShaderCode APIType.OpenGL
        ⟨false, false, false, false, 0, false, false, false⟩ ⟨1, 2⟩ false false := by
  have h := lines_cap_quirk APIType.OpenGL
    ⟨false, false, false, false, 0, false, false, false⟩ ⟨1, 2⟩ false false rfl
  exact ⟨h.2.1, (h.2.2.2.2.1 (Or.inl rfl)).1⟩

/-- C6: under wireframe the body declares `VS_OUTPUT first`, captures the
first emitted vertex with an `if (i == 0) first = ...` statement, re-emits
`first` once more after the per-vertex loop right before closing the
primitive, and the vertex-out bound grows by exactly one. -/
theorem wireframe_closing (api : APIType) (cfg : ShaderHostConfig)
    (uid : geometry_shader_uid_data) (pl bug : Bool) (hwf : cfg.wireframe = true)
    (hapi : api = APIType.OpenGL ∨ api = APIType.Vulkan) :
    vertex_out uid true = vertex_out uid false + 1 ∧
    W.str "\tVS_OUTPUT first;\n" ∈ GenerateGeometryShaderCode api cfg uid pl bug ∧
    (∃ v, W.firstCapture v ∈ GenerateGeometryShaderCode api cfg uid pl bug) ∧
    W.glPosition "first" ∈ EndPrimitive api cfg uid pl ∧
    (∃ pre post, GenerateGeometryShaderCode api cfg uid pl bug =
      pre ++ [W.str "\t\x7d\n"] ++
        (EmitVertex api cfg uid pl "first" false ++ [W.str "\tEndPrimitive();\n"]) ++
        post) := by
  refine ⟨by simp [vertex_out], ?_, ?_, ?_, ?_⟩
  · refine mem_gen_parts (Or.inr (Or.inr (Or.inr (Or.inr (Or.inr (Or.inl ?_))))))
    unfold genLoopHeadPart
    simp [hwf]
  · have hfc : ∃ v, W.firstCapture v ∈ genPrimEmitPart api cfg uid pl := by
      unfold genPrimEmitPart
      by_cases h1 : uid.primitive_type = 1
      · rw [if_pos h1]
        exact ⟨"l", List.mem_append_left _ (List.mem_append_right _
          (firstCapture_mem_EmitVertex api cfg uid pl "l" hwf))⟩
      · rw [if_neg h1]
        by_cases h0 : uid.primitive_type = 0
        · rw [if_pos h0]
          exact ⟨"ll", List.mem_append_left _ (List.mem_append_left _
            (List.mem_append_left _ (List.mem_append_right _
              (firstCapture_mem_EmitVertex api cfg uid pl "ll" hwf))))⟩
        · rw [if_neg h0]
          exact ⟨"f", firstCapture_mem_EmitVertex api cfg uid pl "f" hwf⟩
    obtain ⟨v, hv⟩ := hfc
    exact ⟨v, mem_gen_parts (Or.inr (Or.inr (Or.inr (Or.inr (Or.inr (Or.inr (Or.inr
      (Or.inl hv))))))))⟩
  · unfold EndPrimitive
    rw [if_pos hwf]
    exact List.mem_append_left _
      (glPosition_mem_EmitVertex api cfg uid pl "first" false hapi)
  · refine ⟨genLayoutPart api cfg uid ++ genUniformPart api uid pl ++
      genIODeclPart api cfg uid pl ++ genPrimSetupPart api cfg uid pl ++ genEyePart cfg ++
      genLoopHeadPart api cfg uid pl bug ++ genStereoPart api cfg ++
      genPrimEmitPart api cfg uid pl,
      (if (cfg.stereo ∨ cfg.more_layers ≠ 0) ∧ cfg.backend_gs_instancing = false then
        [W.str "\t\x7d\n"] else []) ++ [W.str "\x7d\n"], ?_⟩
    unfold GenerateGeometryShaderCode genTailPart EndPrimitive
    rw [if_pos hwf]
    rcases hapi with h | h <;> subst h <;> simp [List.append_assoc]

/-- Witness for C6 at a concrete input. -/
theorem wireframe_closing_witness :
    W.str "\tVS_OUTPUT first;\n" ∈
      GenerateGeometryShaderCode APIType.OpenGL
        ⟨true, false, false, false, 0, false, false, false⟩ ⟨2, 0⟩ false false ∧
    W.glPosition "first" ∈
      EndPrimitive APIType.OpenGL
        ⟨true, false, false, false, 0, false, false, false⟩ ⟨2, 0⟩ false := by
  have h := wireframe_closing APIType.OpenGL
    ⟨true, false, false, false, 0, false, false, false⟩ ⟨2, 0⟩ false false rfl (Or.inl rfl)
  exact ⟨h.2.1, h.2.2.2.1⟩

/-- Whether a write event is a texture-coordinate nudge statement (a `+=
texOffset` line of the Lines or Points path). -/
def isNudge : W → Bool
  | .lineNudge _ => true
  | .pointNudgeUl _ => true
  | .pointNudgeUr _ => true
  | .pointNudgeLr _ => true
  | _ => false

theorem countP_isNudge_lineNudges (n : Nat) : (lineNudges n).countP isNudge = n := by
  induction n with
  | zero => simp [lineNudges]
  | succ n ih =>
      simp [lineNudges, List.countP_append, ih, List.countP_cons, isNudge]

theorem countP_isNudge_pointNudges (n : Nat) :
    (pointNudges n).countP isNudge = 3 * n := by
  induction n with
  | zero => simp [pointNudges]
  | succ n ih =>
      simp [pointNudges, List.countP_append, ih, List.countP_cons, isNudge]
      omega

theorem countP_isNudge_EmitVertex (api : APIType) (cfg : ShaderHostConfig)
    (uid : geometry_shader_uid_data) (pl : Bool) (v : String) (fv : Bool) :
    (EmitVertex api cfg uid pl v fv).countP isNudge = 0 := by
  unfold EmitVertex
  split_ifs <;> simp [List.countP_append, List.countP_cons, isNudge]

theorem countP_isNudge_EndPrimitive (api : APIType) (cfg : ShaderHostConfig)
    (uid : geometry_shader_uid_data) (pl : Bool) :
    (EndPrimitive api cfg uid pl).countP isNudge = 0 := by
  unfold EndPrimitive
  split_ifs <;> simp [List.countP_append, List.countP_cons, isNudge,
    countP_isNudge_EmitVertex]

theorem countP_isNudge_genLayoutPart (api : APIType) (cfg : ShaderHostConfig)
    (uid : geometry_shader_uid_data) :
    (genLayoutPart api cfg uid).countP isNudge = 0 := by
  unfold genLayoutPart
  split_ifs <;> simp [List.countP_cons, isNudge]

theorem countP_isNudge_genUniformPart (api : APIType) (uid : geometry_shader_uid_data)
    (pl : Bool) : (genUniformPart api uid pl).countP isNudge = 0 := by
  unfold genUniformPart
  split_ifs <;> simp [List.countP_append, List.countP_cons, isNudge]

theorem countP_isNudge_genIODeclPart (api : APIType) (cfg : ShaderHostConfig)
    (uid : geometry_shader_uid_data) (pl : Bool) :
    (genIODeclPart api cfg uid pl).countP isNudge = 0 := by
  unfold genIODeclPart
  split_ifs <;> simp [List.countP_append, List.countP_cons, isNudge]

theorem countP_isNudge_genPrimSetupPart (api : APIType) (cfg : ShaderHostConfig)
    (uid : geometry_shader_uid_data) (pl : Bool) :
    (genPrimSetupPart api cfg uid pl).countP isNudge = 0 := by
  unfold genPrimSetupPart
  split_ifs <;> simp [List.countP_append, List.countP_cons, isNudge]

theorem countP_isNudge_genEyePart (cfg : ShaderHostConfig) :
    (genEyePart cfg).countP isNudge = 0 := by
  unfold genEyePart
  split_ifs <;> simp [List.countP_cons, isNudge]

theorem countP_isNudge_genLoopHeadPart (api : APIType) (cfg : ShaderHostConfig)
    (uid : geometry_shader_uid_data) (pl bug : Bool) :
    (genLoopHeadPart api cfg uid pl bug).countP isNudge = 0 := by
  unfold genLoopHeadPart
  split_ifs <;> simp [List.countP_append, List.countP_cons, isNudge]

theorem countP_isNudge_genStereoPart (api : APIType) (cfg : ShaderHostConfig) :
    (genStereoPart api cfg).countP isNudge = 0 := by
  unfold genStereoPart
  split_ifs <;> simp [List.countP_append, List.countP_cons, isNudge]

theorem countP_isNudge_genTailPart (api : APIType) (cfg : ShaderHostConfig)
    (uid : geometry_shader_uid_data) (pl : Bool) :
    (genTailPart api cfg uid pl).countP isNudge = 0 := by
  unfold genTailPart
  split_ifs <;> simp [List.countP_append, List.countP_cons, isNudge,
    countP_isNudge_EndPrimitive]

theorem countP_isNudge_genPrimEmitPart (api : APIType) (cfg : ShaderHostConfig)
    (uid : geometry_shader_uid_data) (pl : Bool) :
    (genPrimEmitPart api cfg uid pl).countP isNudge =
      (if uid.primitive_type = 1 then 1 else if uid.primitive_type = 0 then 3 else 0) *
        uid.numTexGens := by
  unfold genPrimEmitPart
  by_cases h1 : uid.primitive_type = 1
  · simp [h1, List.countP_append, List.countP_cons, isNudge,
      countP_isNudge_lineNudges, countP_isNudge_EmitVertex]
  · by_cases h0 : uid.primitive_type = 0
    · simp [h0, h1, List.countP_append, List.countP_cons, isNudge,
        countP_isNudge_pointNudges, countP_isNudge_EmitVertex]
    · simp [h0, h1, countP_isNudge_EmitVertex]

/-- C7: the number of texture-coordinate nudge statements in the whole trace
is `numTexGens` per nudged vertex --- one nudged vertex (`r`) for Lines,
three (`ul`,`ur`,`lr`) for Points, none otherwise --- hence linear in
`numTexGens` and zero when `numTexGens == 0`, where the per-texgen sub-loops
produce nothing at all. -/
theorem texgen_nudge_count (api : APIType) (cfg : ShaderHostConfig)
    (uid : geometry_shader_uid_data) (pl bug : Bool) :
    (GenerateGeometryShaderCode api cfg uid pl bug).countP isNudge =
      (if uid.primitive_type = PrimitiveType.Lines.toU32 then 1
       else if uid.primitive_type = PrimitiveType.Points.toU32 then 3 else 0) *
        uid.numTexGens ∧
    lineNudges 0 = [] ∧ pointNudges 0 = [] := by
  refine ⟨?_, rfl, rfl⟩
  unfold GenerateGeometryShaderCode
  simp only [List.countP_append, countP_isNudge_genLayoutPart,
    countP_isNudge_genUniformPart, countP_isNudge_genIODeclPart,
    countP_isNudge_genPrimSetupPart, countP_isNudge_genEyePart,
    countP_isNudge_genLoopHeadPart, countP_isNudge_genStereoPart,
    countP_isNudge_genTailPart, countP_isNudge_genPrimEmitPart,
    PrimitiveType.toU32]
  simp [List.countP_cons, isNudge]

theorem mem_avatar_parts {w : W} {prim : PrimitiveType} {api : APIType}
    {cfg : ShaderHostConfig} {pl bindingLayout : Bool}
    (h : w ∈ avLayoutPart api cfg prim ∨ w ∈ avUniformPart api bindingLayout ∨
         w ∈ avIODeclPart api cfg prim bindingLayout ∨ w ∈ avPrimSetupPart api prim ∨
         w ∈ avEyePart cfg ∨ w ∈ avLoopHeadPart api cfg prim ∨
         w ∈ avStereoPart api cfg ∨ w ∈ avPrimEmitPart api cfg prim pl ∨
         w = W.str "\t\x7d\n" ∨ w ∈ EndPrimitive api cfg (avatarUid prim) pl) :
    w ∈ GenerateAvatarGeometryShader prim api cfg pl bindingLayout := by
  unfold GenerateAvatarGeometryShader
  simp only [List.mem_append, List.mem_singleton]
  tauto

/-- C10: in the avatar variant, when multi-layer output is requested without
GPU instancing, the emitted software eye loop iterates over the hard-coded
constant bound 2 regardless of the computed `layers`, while the OpenGL output
declaration at the top of the same program is `max_vertices = vertex_out *
layers`. -/
theorem avatar_eye_loop_hardcoded (prim : PrimitiveType) (api : APIType)
    (cfg : ShaderHostConfig) (pl bindingLayout : Bool)
    (hsm : cfg.stereo = true ∨ cfg.more_layers ≠ 0)
    (hinst : cfg.backend_gs_instancing = false) :
    W.str "\tfor (int eye = 0; eye < 2; ++eye) \x7b\n" ∈
      GenerateAvatarGeometryShader prim api cfg pl bindingLayout ∧
    (api = APIType.OpenGL →
      W.layoutOut cfg.wireframe (vertex_out (avatarUid prim) cfg.wireframe * layers cfg) ∈
        GenerateAvatarGeometryShader prim api cfg pl bindingLayout) ∧
    layers cfg = cfg.more_layers * 2 + (if cfg.stereo then 1 else 0) + 1 := by
  refine ⟨?_, fun hgl => ?_, rfl⟩
  · refine mem_avatar_parts (Or.inr (Or.inr (Or.inr (Or.inr (Or.inl ?_)))))
    unfold avEyePart
    rw [if_pos hsm]
    simp [hinst]
  · subst hgl
    refine mem_avatar_parts (Or.inl ?_)
    unfold avLayoutPart
    simp [hinst]

/-- Witness for C10 at a concrete input: layers = 4 yet the loop bound is
the literal 2. -/
theorem avatar_eye_loop_hardcoded_witness :
    W.str "\tfor (int eye = 0; eye < 2; ++eye) \x7b\n" ∈
      GenerateAvatarGeometryShader PrimitiveType.Triangles APIType.OpenGL
        ⟨false, false, false, true, 1, false, false, false⟩ false false ∧
    layers ⟨false, false, false, true, 1, false, false, false⟩ = 4 := by
  have h := avatar_eye_loop_hardcoded PrimitiveType.Triangles APIType.OpenGL
    ⟨false, false, false, true, 1, false, false, false⟩ false false (Or.inl rfl) rfl
  exact ⟨h.1, rfl⟩

/-! ### C8: the Vulkan output vs the OpenGL output -/

/-- The Vulkan Y-flip line that EmitVertex writes after each gl_Position
assignment (line 355). -/
def vulkanFlipLine : String := "\tgl_Position.y = -gl_Position.y;\n"

/-- One step of the flip insertion. -/
def flipOne : W → List W
  | W.glPosition v => [W.glPosition v, W.str vulkanFlipLine]
  | e => [e]

/-- Insert the Vulkan Y-flip write after every gl_Position assignment of a
trace: the relation the spec claims holds between the Vulkan and the OpenGL
output (one added line per emitted vertex, nothing else). -/
def addVulkanFlip (l : List W) : List W := l.flatMap flipOne

theorem addVulkanFlip_nil : addVulkanFlip [] = [] := rfl

theorem addVulkanFlip_append (l1 l2 : List W) :
    addVulkanFlip (l1 ++ l2) = addVulkanFlip l1 ++ addVulkanFlip l2 := by
  simp [addVulkanFlip]

theorem addVulkanFlip_cons_str (s : String) (l : List W) :
    addVulkanFlip (W.str s :: l) = W.str s :: addVulkanFlip l := rfl

theorem addVulkanFlip_cons_glPosition (v : String) (l : List W) :
    addVulkanFlip (W.glPosition v :: l) =
      W.glPosition v :: W.str vulkanFlipLine :: addVulkanFlip l := rfl

theorem addVulkanFlip_cons_glClipDist (i : Nat) (v : String) (l : List W) :
    addVulkanFlip (W.glClipDist i v :: l) = W.glClipDist i v :: addVulkanFlip l := rfl

theorem addVulkanFlip_cons_assign (a b : String) (n : Nat) (pl : Bool) (l : List W) :
    addVulkanFlip (W.assignVSOutputMembers a b n pl :: l) =
      W.assignVSOutputMembers a b n pl :: addVulkanFlip l := rfl

theorem addVulkanFlip_cons_genVS (api : APIType) (n : Nat) (pl : Bool) (q : String)
    (l : List W) :
    addVulkanFlip (W.genVSOutputMembers api n pl q :: l) =
      W.genVSOutputMembers api n pl q :: addVulkanFlip l := rfl

theorem addVulkanFlip_cons_firstCapture (v : String) (l : List W) :
    addVulkanFlip (W.firstCapture v :: l) = W.firstCapture v :: addVulkanFlip l := rfl

theorem addVulkanFlip_cons_psAssign (v : String) (l : List W) :
    addVulkanFlip (W.psAssign v :: l) = W.psAssign v :: addVulkanFlip l := rfl

theorem addVulkanFlip_cons_layoutInInstanced (p : String) (k : Nat) (l : List W) :
    addVulkanFlip (W.layoutInInstanced p k :: l) =
      W.layoutInInstanced p k :: addVulkanFlip l := rfl

theorem addVulkanFlip_cons_layoutIn (p : String) (l : List W) :
    addVulkanFlip (W.layoutIn p :: l) = W.layoutIn p :: addVulkanFlip l := rfl

theorem addVulkanFlip_cons_layoutOut (wf : Bool) (k : Nat) (l : List W) :
    addVulkanFlip (W.layoutOut wf k :: l) = W.layoutOut wf k :: addVulkanFlip l := rfl

theorem addVulkanFlip_cons_vsArrayEnd (k : Nat) (l : List W) :
    addVulkanFlip (W.vsArrayEnd k :: l) = W.vsArrayEnd k :: addVulkanFlip l := rfl

theorem addVulkanFlip_cons_eyeLoop (k : Nat) (l : List W) :
    addVulkanFlip (W.eyeLoop k :: l) = W.eyeLoop k :: addVulkanFlip l := rfl

theorem addVulkanFlip_cons_vertexLoop (k : Nat) (l : List W) :
    addVulkanFlip (W.vertexLoop k :: l) = W.vertexLoop k :: addVulkanFlip l := rfl

theorem addVulkanFlip_cons_lineNudgeIf (i : Nat) (l : List W) :
    addVulkanFlip (W.lineNudgeIf i :: l) = W.lineNudgeIf i :: addVulkanFlip l := rfl

theorem addVulkanFlip_cons_lineNudge (i : Nat) (l : List W) :
    addVulkanFlip (W.lineNudge i :: l) = W.lineNudge i :: addVulkanFlip l := rfl

theorem addVulkanFlip_cons_pointNudgeIf (i : Nat) (l : List W) :
    addVulkanFlip (W.pointNudgeIf i :: l) = W.pointNudgeIf i :: addVulkanFlip l := rfl

theorem addVulkanFlip_cons_pointNudgeUl (i : Nat) (l : List W) :
    addVulkanFlip (W.pointNudgeUl i :: l) = W.pointNudgeUl i :: addVulkanFlip l := rfl

theorem addVulkanFlip_cons_pointNudgeUr (i : Nat) (l : List W) :
    addVulkanFlip (W.pointNudgeUr i :: l) = W.pointNudgeUr i :: addVulkanFlip l := rfl

theorem addVulkanFlip_cons_pointNudgeLr (i : Nat) (l : List W) :
    addVulkanFlip (W.pointNudgeLr i :: l) = W.pointNudgeLr i :: addVulkanFlip l := rfl

theorem addVulkanFlip_lineNudges (n : Nat) :
    addVulkanFlip (lineNudges n) = lineNudges n := by
  induction n with
  | zero => rfl
  | succ n ih =>
      simp [lineNudges, addVulkanFlip_append, ih, addVulkanFlip_cons_lineNudgeIf,
        addVulkanFlip_cons_lineNudge, addVulkanFlip_nil]

theorem addVulkanFlip_pointNudges (n : Nat) :
    addVulkanFlip (pointNudges n) = pointNudges n := by
  induction n with
  | zero => rfl
  | succ n ih =>
      simp [pointNudges, addVulkanFlip_append, ih, addVulkanFlip_cons_pointNudgeIf,
        addVulkanFlip_cons_pointNudgeUl, addVulkanFlip_cons_pointNudgeUr,
        addVulkanFlip_cons_pointNudgeLr, addVulkanFlip_cons_str, addVulkanFlip_nil]

theorem addVulkanFlip_EmitVertex (cfg : ShaderHostConfig) (uid : geometry_shader_uid_data)
    (pl : Bool) (v : String) (fv : Bool) (hdc : cfg.backend_depth_clamp = false) :
    addVulkanFlip (EmitVertex APIType.OpenGL cfg uid pl v fv) =
      EmitVertex APIType.Vulkan cfg uid pl v fv := by
  unfold EmitVertex
  split_ifs <;>
    simp_all [addVulkanFlip_append, addVulkanFlip_cons_firstCapture,
      addVulkanFlip_cons_glPosition, addVulkanFlip_cons_assign,
      addVulkanFlip_cons_str, addVulkanFlip_nil, vulkanFlipLine]

theorem addVulkanFlip_EndPrimitive (cfg : ShaderHostConfig) (uid : geometry_shader_uid_data)
    (pl : Bool) (hdc : cfg.backend_depth_clamp = false) :
    addVulkanFlip (EndPrimitive APIType.OpenGL cfg uid pl) =
      EndPrimitive APIType.Vulkan cfg uid pl := by
  have he := addVulkanFlip_EmitVertex cfg uid pl "first" false hdc
  unfold EndPrimitive
  split_ifs <;>
    simp_all [addVulkanFlip_append, addVulkanFlip_cons_str, addVulkanFlip_nil]

theorem vsMember_gl_vulkan (qual ty name sem : String) :
    vsMember APIType.OpenGL qual ty name sem = vsMember APIType.Vulkan qual ty name sem := by
  simp [vsMember]

theorem vsTexMembers_gl_vulkan (qual : String) (n : Nat) :
    vsTexMembers APIType.OpenGL qual n = vsTexMembers APIType.Vulkan qual n := by
  induction n with
  | zero => rfl
  | succ n ih => simp [vsTexMembers, ih, vsMember_gl_vulkan]

theorem GenerateVSOutputMembersStr_gl_vulkan (n : Nat) (pl : Bool) (qual : String) :
    GenerateVSOutputMembersStr APIType.OpenGL n pl qual =
      GenerateVSOutputMembersStr APIType.Vulkan n pl qual := by
  simp [GenerateVSOutputMembersStr, vsMember_gl_vulkan, vsTexMembers_gl_vulkan]

theorem addVulkanFlip_genLayoutPart (cfg : ShaderHostConfig)
    (uid : geometry_shader_uid_data) :
    addVulkanFlip (genLayoutPart APIType.OpenGL cfg uid) =
      genLayoutPart APIType.Vulkan cfg uid := by
  unfold genLayoutPart
  split_ifs <;>
    simp_all [addVulkanFlip_cons_layoutInInstanced, addVulkanFlip_cons_layoutIn,
      addVulkanFlip_cons_layoutOut, addVulkanFlip_nil]

theorem map_render_flip_genUniformPart (uid : geometry_shader_uid_data) (pl : Bool) :
    (addVulkanFlip (genUniformPart APIType.OpenGL uid pl)).map render =
      (genUniformPart APIType.Vulkan uid pl).map render := by
  unfold genUniformPart
  simp [addVulkanFlip_append, addVulkanFlip_cons_str, addVulkanFlip_cons_genVS,
    addVulkanFlip_nil, render, GenerateVSOutputMembersStr_gl_vulkan]

theorem map_render_flip_genIODeclPart (cfg : ShaderHostConfig)
    (uid : geometry_shader_uid_data) (pl : Bool) :
    (addVulkanFlip (genIODeclPart APIType.OpenGL cfg uid pl)).map render =
      (genIODeclPart APIType.Vulkan cfg uid pl).map render := by
  unfold genIODeclPart
  split_ifs <;>
    simp_all [addVulkanFlip_append, addVulkanFlip_cons_str, addVulkanFlip_cons_genVS,
      addVulkanFlip_cons_vsArrayEnd, addVulkanFlip_nil, render,
      GenerateVSOutputMembersStr_gl_vulkan]

theorem addVulkanFlip_genPrimSetupPart (cfg : ShaderHostConfig)
    (uid : geometry_shader_uid_data) (pl : Bool) :
    addVulkanFlip (genPrimSetupPart APIType.OpenGL cfg uid pl) =
      genPrimSetupPart APIType.Vulkan cfg uid pl := by
  unfold genPrimSetupPart
  split_ifs <;>
    simp_all [addVulkanFlip_append, addVulkanFlip_cons_str, addVulkanFlip_cons_assign,
      addVulkanFlip_nil]

theorem addVulkanFlip_genEyePart (cfg : ShaderHostConfig) :
    addVulkanFlip (genEyePart cfg) = genEyePart cfg := by
  unfold genEyePart
  split_ifs <;>
    simp [addVulkanFlip_cons_str, addVulkanFlip_cons_eyeLoop, addVulkanFlip_nil]

theorem addVulkanFlip_genLoopHeadPart (cfg : ShaderHostConfig)
    (uid : geometry_shader_uid_data) (pl bug : Bool) :
    addVulkanFlip (genLoopHeadPart APIType.OpenGL cfg uid pl bug) =
      genLoopHeadPart APIType.Vulkan cfg uid pl bug := by
  unfold genLoopHeadPart
  split_ifs <;>
    simp_all [addVulkanFlip_append, addVulkanFlip_cons_str, addVulkanFlip_cons_assign,
      addVulkanFlip_cons_vertexLoop, addVulkanFlip_nil]

theorem addVulkanFlip_genStereoPart (cfg : ShaderHostConfig) (hvr : cfg.vr = false) :
    addVulkanFlip (genStereoPart APIType.OpenGL cfg) = genStereoPart APIType.Vulkan cfg := by
  unfold genStereoPart
  split_ifs <;>
    simp_all [addVulkanFlip_append, addVulkanFlip_cons_str, addVulkanFlip_nil]

theorem addVulkanFlip_genPrimEmitPart (cfg : ShaderHostConfig)
    (uid : geometry_shader_uid_data) (pl : Bool) (hdc : cfg.backend_depth_clamp = false) :
    addVulkanFlip (genPrimEmitPart APIType.OpenGL cfg uid pl) =
      genPrimEmitPart APIType.Vulkan cfg uid pl := by
  have he : ∀ v fv, addVulkanFlip (EmitVertex APIType.OpenGL cfg uid pl v fv) =
      EmitVertex APIType.Vulkan cfg uid pl v fv :=
    fun v fv => addVulkanFlip_EmitVertex cfg uid pl v fv hdc
  unfold genPrimEmitPart
  by_cases h1 : uid.primitive_type = 1
  · simp [h1, addVulkanFlip_append, addVulkanFlip_lineNudges, he,
      addVulkanFlip_cons_str, addVulkanFlip_nil]
  · by_cases h0 : uid.primitive_type = 0
    · simp [h0, h1, addVulkanFlip_append, addVulkanFlip_pointNudges, he,
        addVulkanFlip_cons_str, addVulkanFlip_nil]
    · simp [h0, h1, he]

theorem addVulkanFlip_genTailPart (cfg : ShaderHostConfig)
    (uid : geometry_shader_uid_data) (pl : Bool) (hdc : cfg.backend_depth_clamp = false) :
    addVulkanFlip (genTailPart APIType.OpenGL cfg uid pl) =
      genTailPart APIType.Vulkan cfg uid pl := by
  have he := addVulkanFlip_EndPrimitive cfg uid pl hdc
  unfold genTailPart
  split_ifs <;>
    simp_all [addVulkanFlip_append, addVulkanFlip_cons_str, addVulkanFlip_nil]

/-- C8 (amended): when depth-clamp is disabled and VR mode is off, the Vulkan
output text equals the OpenGL output text with exactly one added
`gl_Position.y = -gl_Position.y;` line after each `gl_Position` assignment
(one per emitted vertex) and no other divergence. -/
theorem vulkan_flip_refinement (cfg : ShaderHostConfig) (uid : geometry_shader_uid_data)
    (pl bug : Bool) (hdc : cfg.backend_depth_clamp = false) (hvr : cfg.vr = false) :
    (GenerateGeometryShaderCode APIType.Vulkan cfg uid pl bug).map render =
      (addVulkanFlip (GenerateGeometryShaderCode APIType.OpenGL cfg uid pl bug)).map
        render := by
  unfold GenerateGeometryShaderCode
  simp only [addVulkanFlip_append, List.map_append]
  rw [addVulkanFlip_genLayoutPart, addVulkanFlip_genPrimSetupPart, addVulkanFlip_genEyePart,
    addVulkanFlip_genLoopHeadPart, addVulkanFlip_genStereoPart cfg hvr,
    addVulkanFlip_genPrimEmitPart cfg uid pl hdc, addVulkanFlip_genTailPart cfg uid pl hdc,
    map_render_flip_genUniformPart, map_render_flip_genIODeclPart,
    addVulkanFlip_cons_str, addVulkanFlip_nil]

/-- Witness for the amended C8 at a concrete input. -/
theorem vulkan_flip_refinement_witness :
    (GenerateGeometryShaderCode APIType.Vulkan
        ⟨false, false, false, false, 0, false, false, false⟩ ⟨2, 1⟩ false false).map
      render =
      (addVulkanFlip (GenerateGeometryShaderCode APIType.OpenGL
        ⟨false, false, false, false, 0, false, false, false⟩ ⟨2, 1⟩ false false)).map
      render :=
  vulkan_flip_refinement ⟨false, false, false, false, 0, false, false, false⟩ ⟨2, 1⟩
    false false rfl rfl

/-- Counterexample to C8 as stated: with depth-clamp enabled the OpenGL
output forwards gl_ClipDistance per emitted vertex while the Vulkan output
does not (a removed line, not an added flip), so the two texts do not differ
only by the flip insertion; and with VR on, the `gl_Layer = eye;` binding is
emitted for OpenGL only. -/
theorem vulkan_flip_counterexample :
    W.glClipDist 0 "f" ∈ GenerateGeometryShaderCode APIType.OpenGL
        ⟨false, false, false, false, 0, false, false, true⟩ ⟨2, 0⟩ false false ∧
    W.glClipDist 0 "f" ∉ GenerateGeometryShaderCode APIType.Vulkan
        ⟨false, false, false, false, 0, false, false, true⟩ ⟨2, 0⟩ false false ∧
    ¬((GenerateGeometryShaderCode APIType.Vulkan
        ⟨false, false, false, false, 0, false, false, true⟩ ⟨2, 0⟩ false false).map
          render =
      (addVulkanFlip (GenerateGeometryShaderCode APIType.OpenGL
        ⟨false, false, false, false, 0, false, false, true⟩ ⟨2, 0⟩ false false)).map
          render) ∧
    W.str "\tgl_Layer = eye;\n" ∈ GenerateGeometryShaderCode APIType.OpenGL
        ⟨false, false, false, true, 0, true, false, false⟩ ⟨2, 0⟩ false false ∧
    W.str "\tgl_Layer = eye;\n" ∉ GenerateGeometryShaderCode APIType.Vulkan
        ⟨false, false, false, true, 0, true, false, false⟩ ⟨2, 0⟩ false false := by
  refine ⟨by decide, by decide, fun h => absurd (congrArg List.length h) (by decide),
    by decide, by decide⟩
